import Mathlib

/-!
Verification of the topup-backend query-orchestration core: the guardrail
validator (`agents/guardrail.py`), the fingerprint-keyed LRU/TTL cache
(`tools/cache_tool.py`), and the LangGraph orchestration pipeline
(`agents/__init__.py`). Python functions are shallowly embedded as Lean
functions; Python `time.time()` is passed explicitly as an integer `now`;
exceptions raised by external collaborators are modelled with `Except`.
-/

set_option maxRecDepth 4000

/-! ## Data model: `SegmentFilters` and `Plan`

`models/schemas.py` is not part of the sources at hand; the field layout is
reconstructed from its uses in `agents/guardrail.py`, `agents/planner.py`
and the test suite (`tests/agents/test_planner.py`): a `Plan` carries
intent, table, metric, date_col, window, granularity, segments, chart.
Optional fields are `Option`; a pydantic `Optional[str]` left out is `none`.
-/

structure SegmentFilters where
  channel : Option String := none
  grade : Option String := none
  prod_type : Option String := none
  repeat_type : Option String := none
  term : Option Int := none
  cr_fico_band : Option String := none
  purpose : Option String := none
deriving DecidableEq, Repr

structure Plan where
  intent : String
  table : String
  metric : String
  date_col : String
  window : String
  granularity : String
  segments : SegmentFilters
  chart : String
deriving DecidableEq, Repr

/-- Python truthiness of an optional string: `None` and `""` are falsy. -/
def optStrTruthy : Option String → Bool
  | none => false
  | some s => s != ""

/-- Python truthiness of an optional int: `None` and `0` are falsy. -/
def optIntTruthy : Option Int → Bool
  | none => false
  | some n => n != 0

/-! ## Guardrail validator (`agents/guardrail.py`) -/

/-- `ValidationResult` from `guardrail.py` (defaults as in the Python
constructor: `error_message=None`, `security_event=False`). -/
structure ValidationResult where
  is_valid : Bool
  error_message : Option String := none
  security_event : Bool := false
deriving DecidableEq, Repr

def ALLOWED_SEGMENTS_channel : List String :=
  ["OMB", "Email", "Search", "D2LC", "DM", "LT", "Experian", "Karma", "Small Partners"]

def ALLOWED_SEGMENTS_grade : List String := ["P1", "P2", "P3", "P4", "P5", "P6"]

def ALLOWED_SEGMENTS_prod_type : List String := ["Prime", "NP", "D2P"]

def ALLOWED_SEGMENTS_repeat_type : List String := ["Repeat", "New"]

def ALLOWED_SEGMENTS_term : List Int := [36, 48, 60, 72, 84]

def ALLOWED_SEGMENTS_cr_fico_band : List String := ["<640", "640-699", "700-759", "760+"]

def ALLOWED_SEGMENTS_purpose : List String :=
  ["debt_consolidation", "home_improvement", "major_purchase", "medical", "car", "other"]

def DANGEROUS_KEYWORDS : List String :=
  ["INSERT", "UPDATE", "DELETE", "DROP", "ALTER", "CREATE", "TRUNCATE", "REPLACE", "MERGE"]

def MAX_TIME_WINDOW_DAYS : Nat := 365

/-- A regex word character (`\w`), restricted to the ASCII range the
segment values and SQL keywords live in: letters, digits, underscore. -/
def isWordChar (c : Char) : Bool := c.isAlphanum || c = '_'

/-- `re` word boundary `\b` on the left of position `i`. -/
def boundaryBefore (text : List Char) (i : Nat) : Bool :=
  match i with
  | 0 => true
  | j + 1 =>
    match text[j]? with
    | some c => !isWordChar c
    | none => true

/-- `re` word boundary `\b` on the right of position `j`. -/
def boundaryAfter (text : List Char) (j : Nat) : Bool :=
  match text[j]? with
  | some c => !isWordChar c
  | none => true

/-- Does `pat` occur in `text` at position `i` delimited by word boundaries
(the semantics of `re.search(r"\b" + pat + r"\b", text)` for a pattern made
of word characters)? -/
def wordMatchAt (text pat : List Char) (i : Nat) : Bool :=
  ((text.drop i).take pat.length == pat) &&
    boundaryBefore text i && boundaryAfter text (i + pat.length)

def hasWordMatch (text pat : List Char) : Bool :=
  (List.range (text.length + 1)).any (wordMatchAt text pat)

/-- `sql.upper()`; Python uppercases per Unicode, `Char.toUpper` per ASCII,
which agree on the ASCII queries and keywords involved here. -/
def pyUpper (s : String) : List Char := s.data.map Char.toUpper

/-- `_check_sql_safety` from `guardrail.py`: first dangerous keyword found
as a whole word in the uppercased SQL yields a security rejection. -/
def _check_sql_safety (sql : String) : ValidationResult :=
  let sql_upper := pyUpper sql
  match DANGEROUS_KEYWORDS.find? (fun kw => hasWordMatch sql_upper kw.data) with
  | some kw =>
    { is_valid := false
      error_message := some ("SQL query contains forbidden keyword: " ++ kw)
      security_event := true }
  | none => { is_valid := true }

/-- Python `str.strip()` on the ASCII whitespace relevant to SQL text. -/
def pyStrip (l : List Char) : List Char :=
  ((l.dropWhile Char.isWhitespace).reverse.dropWhile Char.isWhitespace).reverse

/-- `_check_multiple_statements` from `guardrail.py`: strip the SQL, drop a
single trailing semicolon, and reject if any semicolon remains. -/
def _check_multiple_statements (sql : String) : ValidationResult :=
  let sql_stripped := pyStrip sql.data
  let sql_stripped :=
    if sql_stripped.getLast? = some ';' then sql_stripped.dropLast else sql_stripped
  if sql_stripped.contains ';' then
    { is_valid := false
      error_message := some "SQL query contains multiple statements (semicolons not allowed)"
      security_event := true }
  else { is_valid := true }

/-- The single-quote character, for reproducing the Python error strings. -/
def sglq : String := String.singleton (Char.ofNat 39)

def msg_channel (v : String) : String :=
  "Invalid channel value: " ++ sglq ++ v ++ sglq ++ ". Allowed values: " ++
    String.intercalate ", " ALLOWED_SEGMENTS_channel ++ " or " ++ sglq ++ "ALL" ++ sglq ++
    " for grouping"

def msg_grade (v : String) : String :=
  "Invalid grade value: " ++ sglq ++ v ++ sglq ++ ". Allowed values: " ++
    String.intercalate ", " ALLOWED_SEGMENTS_grade ++ " or " ++ sglq ++ "ALL" ++ sglq ++
    " for grouping"

def msg_prod_type (v : String) : String :=
  "Invalid prod_type value: " ++ sglq ++ v ++ sglq ++ ". Allowed values: " ++
    String.intercalate ", " ALLOWED_SEGMENTS_prod_type ++ " or " ++ sglq ++ "ALL" ++ sglq ++
    " for grouping"

def msg_repeat_type (v : String) : String :=
  "Invalid repeat_type value: " ++ sglq ++ v ++ sglq ++ ". Allowed values: " ++
    String.intercalate ", " ALLOWED_SEGMENTS_repeat_type

def msg_term (n : Int) : String :=
  "Invalid term value: " ++ toString n ++ ". Allowed values: " ++
    String.intercalate ", " (ALLOWED_SEGMENTS_term.map toString)

def msg_cr_fico_band (v : String) : String :=
  "Invalid cr_fico_band value: " ++ sglq ++ v ++ sglq ++ ". Allowed values: " ++
    String.intercalate ", " ALLOWED_SEGMENTS_cr_fico_band

def msg_purpose (v : String) : String :=
  "Invalid purpose value: " ++ sglq ++ v ++ sglq ++ ". Allowed values: " ++
    String.intercalate ", " ALLOWED_SEGMENTS_purpose

/-- `segments.channel and segments.channel != "ALL" and segments.channel
not in ALLOWED_SEGMENTS["channel"]`. -/
def chanViolation (s : SegmentFilters) : Bool :=
  optStrTruthy s.channel && (s.channel.getD "" != "ALL") &&
    !(ALLOWED_SEGMENTS_channel.contains (s.channel.getD ""))

def gradeViolation (s : SegmentFilters) : Bool :=
  optStrTruthy s.grade && (s.grade.getD "" != "ALL") &&
    !(ALLOWED_SEGMENTS_grade.contains (s.grade.getD ""))

def prodTypeViolation (s : SegmentFilters) : Bool :=
  optStrTruthy s.prod_type && (s.prod_type.getD "" != "ALL") &&
    !(ALLOWED_SEGMENTS_prod_type.contains (s.prod_type.getD ""))

/-- `segments.repeat_type and segments.repeat_type not in
ALLOWED_SEGMENTS["repeat_type"]` — note: no "ALL" exemption in the source. -/
def repeatTypeViolation (s : SegmentFilters) : Bool :=
  optStrTruthy s.repeat_type &&
    !(ALLOWED_SEGMENTS_repeat_type.contains (s.repeat_type.getD ""))

def termViolation (s : SegmentFilters) : Bool :=
  optIntTruthy s.term && !(ALLOWED_SEGMENTS_term.contains (s.term.getD 0))

def crFicoViolation (s : SegmentFilters) : Bool :=
  optStrTruthy s.cr_fico_band &&
    !(ALLOWED_SEGMENTS_cr_fico_band.contains (s.cr_fico_band.getD ""))

def purposeViolation (s : SegmentFilters) : Bool :=
  optStrTruthy s.purpose && !(ALLOWED_SEGMENTS_purpose.contains (s.purpose.getD ""))

/-- `_validate_segment_filters` from `guardrail.py`: the ordered cascade of
per-field checks, returning the first failure (never a security event). -/
def _validate_segment_filters (plan : Plan) : ValidationResult :=
  let s := plan.segments
  if chanViolation s then
    { is_valid := false, error_message := some (msg_channel (s.channel.getD "")) }
  else if gradeViolation s then
    { is_valid := false, error_message := some (msg_grade (s.grade.getD "")) }
  else if prodTypeViolation s then
    { is_valid := false, error_message := some (msg_prod_type (s.prod_type.getD "")) }
  else if repeatTypeViolation s then
    { is_valid := false, error_message := some (msg_repeat_type (s.repeat_type.getD "")) }
  else if termViolation s then
    { is_valid := false, error_message := some (msg_term (s.term.getD 0)) }
  else if crFicoViolation s then
    { is_valid := false, error_message := some (msg_cr_fico_band (s.cr_fico_band.getD "")) }
  else if purposeViolation s then
    { is_valid := false, error_message := some (msg_purpose (s.purpose.getD "")) }
  else { is_valid := true }

/-- First-match association-list lookup (Python `dict.get` on the literal
`window_days` dict, and `OrderedDict` key lookup for the cache). -/
def assocLookup {α β : Type} [DecidableEq α] (k : α) : List (α × β) → Option β
  | [] => none
  | (k2, v) :: rest => if k = k2 then some v else assocLookup k rest

def window_days : List (String × Nat) :=
  [("last_7d", 7), ("last_full_week", 7), ("last_30d", 30),
   ("last_full_month", 31), ("last_3_full_months", 93)]

/-- `window_days.get(plan.window, 30)`. -/
def windowDaysOf (w : String) : Nat := (assocLookup w window_days).getD 30

def msg_window (w : String) (days : Nat) : String :=
  "Time window exceeds maximum allowed (" ++ toString MAX_TIME_WINDOW_DAYS ++
    " days). Requested window: " ++ w ++ " (~" ++ toString days ++
    " days). Please use a shorter time window or explicitly request a longer period."

/-- `_validate_time_window` from `guardrail.py`. -/
def _validate_time_window (plan : Plan) : ValidationResult :=
  let days := windowDaysOf plan.window
  if days > MAX_TIME_WINDOW_DAYS then
    { is_valid := false, error_message := some (msg_window plan.window days) }
  else { is_valid := true }

/-- `validate` from `guardrail.py`: the four ordered rules, short-circuiting
on the first failure (`_log_security_event` only logs and is omitted). -/
def validate (plan : Plan) (sql : String) : ValidationResult :=
  let sql_check := _check_sql_safety sql
  if !sql_check.is_valid then sql_check
  else
    let semicolon_check := _check_multiple_statements sql
    if !semicolon_check.is_valid then semicolon_check
    else
      let segment_check := _validate_segment_filters plan
      if !segment_check.is_valid then segment_check
      else
        let window_check := _validate_time_window plan
        if !window_check.is_valid then window_check
        else { is_valid := true }

/-! ## Plan fingerprint (`Plan.cache_key`)

`Plan.cache_key()` lives in `models/schemas.py`, which is not among the
sources at hand (only its callers and tests are); it is modelled from the
spec below.
-/

/-- Modelled from the spec: the populated segment filters of a Plan viewed
as the spec's "mapping of named segment filters to values" (absent filters
are omitted, the integer `term` is rendered in decimal). -/
def segmentEntries (s : SegmentFilters) : List (String × String) :=
  (match s.channel with | some v => [("channel", v)] | none => []) ++
  (match s.grade with | some v => [("grade", v)] | none => []) ++
  (match s.prod_type with | some v => [("prod_type", v)] | none => []) ++
  (match s.repeat_type with | some v => [("repeat_type", v)] | none => []) ++
  (match s.term with | some n => [("term", toString n)] | none => []) ++
  (match s.cr_fico_band with | some v => [("cr_fico_band", v)] | none => []) ++
  (match s.purpose with | some v => [("purpose", v)] | none => [])

/-- Modelled from the spec: order-stable canonical form of the segment map —
entries rendered as "key=value" and sorted, so that any insertion order of
the same entries serializes identically. -/
def canonicalSegments (entries : List (String × String)) : List String :=
  List.insertionSort (fun a b : String => a ≤ b)
    (entries.map (fun kv => kv.1 ++ "=" ++ kv.2))

/-- Modelled from the spec: deterministic, order-stable serialization of a
Plan — the scalar fields in a fixed order, then the canonicalized segment
map. -/
def canonicalSerialize (p : Plan) (entries : List (String × String)) : String :=
  String.intercalate "|"
    ([p.intent, p.table, p.metric, p.date_col, p.window, p.granularity, p.chart] ++
      canonicalSegments entries)

/-- Modelled from the spec: the "cryptographic hash" producing the
fingerprint, abstracted as a concrete deterministic digest of the canonical
serialization (a 64-bit polynomial rolling hash; the Python source uses
SHA-256, whose collision-resistance is outside the model). -/
def simpleHash (s : String) : Nat :=
  s.data.foldl (fun h c => (h * 131 + c.toNat) % (2 ^ 64)) 5381

/-- Modelled from the spec: fingerprint of a Plan whose segment map is
given explicitly (in an arbitrary entry order). -/
def fingerprintWith (p : Plan) (entries : List (String × String)) : String :=
  toString (simpleHash (canonicalSerialize p entries))

/-- Modelled from the spec: `Plan.cache_key()` — the fingerprint used as the
cache key. -/
def Plan.cache_key (p : Plan) : String := fingerprintWith p (segmentEntries p.segments)

/-! ## In-memory LRU/TTL cache (`tools/cache_tool.py`)

The `OrderedDict` is modelled as an association list whose order is the
`OrderedDict` order: front = least recently used, back = most recently
used. `time.time()` is the explicit integer `now`. Values are opaque (the
DataFrame pickling at the cache boundary is the identity on the model's
opaque payloads).
-/

structure CacheEntry (α : Type) where
  value : α
  created_at : Int
  expires_at : Int
deriving DecidableEq, Repr

/-- `CacheEntry.__init__`: `expires_at = created_at + ttl`. -/
def mkCacheEntry {α : Type} (v : α) (now : Int) (ttl : Int) : CacheEntry α :=
  { value := v, created_at := now, expires_at := now + ttl }

/-- `CacheEntry.is_expired`: `time.time() > self.expires_at`. -/
def CacheEntry.is_expired {α : Type} (e : CacheEntry α) (now : Int) : Bool :=
  now > e.expires_at

structure InMemoryLRUCache (α : Type) where
  max_size : Nat
  default_ttl : Int
  data : List (String × CacheEntry α)
deriving DecidableEq, Repr

/-- `del self._cache[key]` (the `OrderedDict` holds each key at most once;
on such lists the filter removes exactly that entry). -/
def eraseKey {α : Type} (k : String) (l : List (String × CacheEntry α)) :
    List (String × CacheEntry α) :=
  l.filter (fun kv => kv.1 != k)

/-- `InMemoryLRUCache.get`: `None` on a missing key; lazy expiry (the
expired entry is deleted); on a hit the entry is moved to the
most-recently-used end and its value returned. -/
def InMemoryLRUCache.get {α : Type} (c : InMemoryLRUCache α) (now : Int) (k : String) :
    Option α × InMemoryLRUCache α :=
  match assocLookup k c.data with
  | none => (none, c)
  | some entry =>
    if entry.is_expired now then (none, { c with data := eraseKey k c.data })
    else (some entry.value, { c with data := eraseKey k c.data ++ [(k, entry)] })

/-- `InMemoryLRUCache.set`: `ttl = ex if ex is not None else default_ttl`;
an existing key is deleted first and the new entry appended at the
most-recently-used end; if the size then exceeds `max_size`, the single
least-recently-used entry (`popitem(last=False)`) is evicted. -/
def InMemoryLRUCache.set {α : Type} (c : InMemoryLRUCache α) (now : Int) (k : String)
    (v : α) (ex : Option Int) : InMemoryLRUCache α :=
  let ttl := ex.getD c.default_ttl
  let entry := mkCacheEntry v now ttl
  let d := eraseKey k c.data ++ [(k, entry)]
  let d2 := if d.length > c.max_size then d.tail else d
  { c with data := d2 }

/-- `InMemoryLRUCache.clear`. -/
def InMemoryLRUCache.clear {α : Type} (c : InMemoryLRUCache α) : InMemoryLRUCache α :=
  { c with data := [] }

/-- `InMemoryLRUCache.size`: entry count without pruning expired entries. -/
def InMemoryLRUCache.size {α : Type} (c : InMemoryLRUCache α) : Nat := c.data.length

/-- `InMemoryLRUCache.cleanup_expired`: sweep out expired entries, returning
the number removed. -/
def InMemoryLRUCache.cleanup_expired {α : Type} (c : InMemoryLRUCache α) (now : Int) :
    Nat × InMemoryLRUCache α :=
  let kept := c.data.filter (fun kv => !(kv.2.is_expired now))
  (c.data.length - kept.length, { c with data := kept })

/-! ## Orchestration pipeline (`agents/__init__.py`)

The LangGraph state machine is embedded as a function over `GraphState`.
External collaborators (router, planner, SQL executor, chart tool,
insights agent, memory agent) are black boxes that may raise, modelled as
`Except`-valued parameters. Rows, chart specs and insights are opaque
payloads (the pipeline only inspects presence and row count). The cache of
`cache_tool` is threaded explicitly; the trace additionally records every
`cache_tool.set` call and the number of times each guarded stage ran.
-/

abbrev Row := Nat

abbrev ChartSpec := Nat

/-- `Insight` pydantic model, reduced to the fields the core reads;
`model_dump` is the identity on this opaque payload. -/
structure Insight where
  title : String
  summary : String
deriving DecidableEq, Repr

/-- The value bundle `cache_store_node` writes:
`{"df_dict": ..., "chart_spec": ..., "insight": ...}`. -/
structure CacheValue where
  df_dict : Option (List Row)
  chart_spec : Option ChartSpec
  insight : Option Insight
deriving DecidableEq, Repr

abbrev PipelineCache := InMemoryLRUCache CacheValue

/-- `GraphState` from `agents/__init__.py`. -/
structure GraphState where
  user_query : String
  conversation_history : List (String × String)
  intent : Option String
  plan : Option Plan
  sql : Option String
  df_dict : Option (List Row)
  chart_spec : Option ChartSpec
  insight : Option Insight
  error : Option String
  cache_key : Option String
  cache_hit : Bool
deriving DecidableEq, Repr

/-- The external collaborators, with `Except.error` standing for a raised
exception (carrying `str(e)`). `memory_available` mirrors
`MEMORY_AGENT_AVAILABLE`. -/
structure Collaborators where
  classify : String → List (String × String) → Except String String
  make_plan : String → Option String → List (String × String) → Except String Plan
  run_sql : Plan → Except String (List Row)
  build_chart : Plan → List Row → Except String ChartSpec
  summarize : Plan → List Row → Except String Insight
  explain : String → Except String String
  memory_available : Bool

/-- Python truthiness of the `df_dict` list: `None` and `[]` are falsy
(`not state.get("df_dict") or len(state.get("df_dict", [])) == 0`). -/
def dfTruthy : Option (List Row) → Bool
  | none => false
  | some rows => !rows.isEmpty

/-- `router_node`: classify; on an exception record the error and fall back
to the "trend" intent. -/
def router_node (C : Collaborators) (st : GraphState) : GraphState :=
  match C.classify st.user_query st.conversation_history with
  | Except.ok intent => { st with intent := some intent }
  | Except.error e =>
    { st with error := some ("Intent classification failed: " ++ e), intent := some "trend" }

/-- `memory_node`: explain-intent path. -/
def memory_node (C : Collaborators) (st : GraphState) : GraphState :=
  if !C.memory_available then
    { st with insight := some (Insight.mk "Explanation"
        "The explanation feature is not yet configured. Please ensure the RAG tool is initialized.") }
  else
    match C.explain st.user_query with
    | Except.ok explanation =>
      { st with insight := some (Insight.mk "Explanation" explanation) }
    | Except.error e =>
      { st with
          error := some ("Explanation retrieval failed: " ++ e)
          insight := some (Insight.mk "Explanation"
            "Unable to retrieve explanation. Please try rephrasing your question.") }

/-- `planner_node`: make the plan and its cache key; a raised exception
becomes a state error. -/
def planner_node (C : Collaborators) (st : GraphState) : GraphState :=
  match C.make_plan st.user_query st.intent st.conversation_history with
  | Except.ok plan => { st with plan := some plan, cache_key := some plan.cache_key }
  | Except.error e => { st with error := some ("Query planning failed: " ++ e) }

/-- `cache_check_node`: look the fingerprint up; on a hit populate the
state from the cached bundle. -/
def cache_check_node (now : Int) (st : GraphState) (cache : PipelineCache) :
    GraphState × PipelineCache :=
  if !optStrTruthy st.cache_key then ({ st with cache_hit := false }, cache)
  else
    match cache.get now (st.cache_key.getD "") with
    | (some cv, cache2) =>
      ({ st with cache_hit := true, df_dict := cv.df_dict, chart_spec := cv.chart_spec, insight := cv.insight }, cache2)
    | (none, cache2) => ({ st with cache_hit := false }, cache2)

/-- `guardrail_node`: validate the plan, passing the empty string as the
SQL preview text (the real SQL is only generated later). -/
def guardrail_node (st : GraphState) : GraphState :=
  match st.plan with
  | none => { st with error := some "No plan to validate" }
  | some p =>
    let validation_result := validate p ""
    if !validation_result.is_valid then { st with error := validation_result.error_message }
    else st

/-- `sql_executor_node`: run the query; a raised exception becomes a state
error. -/
def sql_executor_node (C : Collaborators) (st : GraphState) : GraphState :=
  match st.plan with
  | none => { st with error := some "No plan to execute" }
  | some p =>
    match C.run_sql p with
    | Except.ok rows => { st with df_dict := some rows }
    | Except.error e => { st with error := some ("Query execution failed: " ++ e) }

/-- `chart_node`: optional; failures are swallowed and no error is set. -/
def chart_node (C : Collaborators) (st : GraphState) : GraphState :=
  match st.plan, st.df_dict with
  | some p, some rows =>
    if rows.isEmpty then st
    else
      match C.build_chart p rows with
      | Except.ok spec => { st with chart_spec := some spec }
      | Except.error _ => st
  | _, _ => st

/-- `insights_node`: optional; failures are swallowed and no error is set. -/
def insights_node (C : Collaborators) (st : GraphState) : GraphState :=
  match st.plan, st.df_dict with
  | some p, some rows =>
    if rows.isEmpty then st
    else
      match C.summarize p rows with
      | Except.ok ins => { st with insight := some ins }
      | Except.error _ => st
  | _, _ => st

/-- `cache_store_node`: write the bundle only when a key exists, the state
has no error, the result has rows, and a chart or insight is present; the
write uses a 600-second TTL. The returned list records the `set` call. -/
def cache_store_node (now : Int) (st : GraphState) (cache : PipelineCache) :
    GraphState × PipelineCache × List (String × CacheValue) :=
  if !optStrTruthy st.cache_key then (st, cache, [])
  else if optStrTruthy st.error then (st, cache, [])
  else if !dfTruthy st.df_dict then (st, cache, [])
  else if st.chart_spec = none && st.insight = none then (st, cache, [])
  else
    let key := st.cache_key.getD ""
    let value : CacheValue := { df_dict := st.df_dict, chart_spec := st.chart_spec, insight := st.insight }
    (st, cache.set now key value (some 600), [(key, value)])

/-- Result of one `app.invoke(initial_state)`: terminal state, cache after
the run, `cache_tool.set` calls performed, and how many times the planner,
guardrail and SQL-executor stages ran. -/
structure RunResult where
  state : GraphState
  cache : PipelineCache
  writes : List (String × CacheValue)
  plan_calls : Nat
  validate_calls : Nat
  sql_calls : Nat

def initialState (q : String) (hist : List (String × String)) : GraphState :=
  { user_query := q, conversation_history := hist, intent := none, plan := none,
    sql := none, df_dict := none, chart_spec := none, insight := none, error := none,
    cache_key := none, cache_hit := false }

/-- One execution of the compiled LangGraph (`create_graph`): router, then
the conditional edges `should_use_memory`, `should_skip_execution` and
`should_continue_after_guardrail`; `sql_executor → chart → insights →
cache_store` are unconditional edges. -/
def runGraph (C : Collaborators) (now : Int) (cache : PipelineCache) (q : String)
    (hist : List (String × String)) : RunResult :=
  let st := router_node C (initialState q hist)
  if st.intent = some "explain" then
    { state := memory_node C st, cache := cache, writes := [],
      plan_calls := 0, validate_calls := 0, sql_calls := 0 }
  else
    let st := planner_node C st
    let checked := cache_check_node now st cache
    let st := checked.1
    let cache := checked.2
    if st.cache_hit || optStrTruthy st.error then
      { state := st, cache := cache, writes := [],
        plan_calls := 1, validate_calls := 0, sql_calls := 0 }
    else
      let st := guardrail_node st
      if optStrTruthy st.error then
        { state := st, cache := cache, writes := [],
          plan_calls := 1, validate_calls := 1, sql_calls := 0 }
      else
        let st := sql_executor_node C st
        let st := chart_node C st
        let st := insights_node C st
        let stored := cache_store_node now st cache
        { state := stored.1, cache := stored.2.1, writes := stored.2.2,
          plan_calls := 1, validate_calls := 1, sql_calls := 1 }

/-- The result dict `run_query` builds (`plan`/`insight` are serialized via
`model_dump`, the identity on the model's opaque payloads). -/
structure QueryResponse where
  plan : Option Plan
  chart_spec : Option ChartSpec
  insight : Option Insight
  error : Option String
  cache_hit : Bool
deriving DecidableEq, Repr

def buildResponse (st : GraphState) : QueryResponse :=
  { plan := st.plan, chart_spec := st.chart_spec, insight := st.insight,
    error := st.error, cache_hit := st.cache_hit }

/-- The retry loop of `run_query`: `while attempt < max_retries`, invoking
the graph, breaking on the first attempt without a truthy error, otherwise
keeping the last attempt's state. Returns the Python `final_state`
(`none` = the Python `None` it was initialized to), the cache, and the
number of graph invocations. In the embedding a graph invocation cannot
itself raise (every collaborator exception is caught inside a node), so
the `except` arm of the Python loop is unreachable. -/
def runQueryLoop (C : Collaborators) (now : Int) (q : String)
    (hist : List (String × String)) :
    Nat → PipelineCache → Option GraphState → Option GraphState × PipelineCache × Nat
  | 0, cache, last => (last, cache, 0)
  | k + 1, cache, _ =>
    let r := runGraph C now cache q hist
    if !optStrTruthy r.state.error then (some r.state, r.cache, 1)
    else
      let rest := runQueryLoop C now q hist k r.cache (some r.state)
      (rest.1, rest.2.1, rest.2.2 + 1)

/-- The Python message of the fault `run_query` hits when the retry loop
never ran and `final_state` is still `None`. -/
def pyNoneTypeFault : String :=
  "AttributeError: " ++ sglq ++ "NoneType" ++ sglq ++ " object has no attribute " ++
    sglq ++ "get" ++ sglq

/-- `run_query` from `agents/__init__.py`: run the graph with retry logic
and build the response from the final state. When `max_retries = 0` the
loop body never runs, `final_state` remains `None`, and building the
response (`final_state.get(...)`) raises `AttributeError`; that raised
fault is the `Except.error` case. -/
def run_query (C : Collaborators) (now : Int) (cache : PipelineCache) (q : String)
    (hist : List (String × String)) (max_retries : Nat) :
    Except String QueryResponse × PipelineCache × Nat :=
  let looped := runQueryLoop C now q hist max_retries cache none
  match looped.1 with
  | none => (Except.error pyNoneTypeFault, looped.2.1, looped.2.2)
  | some st => (Except.ok (buildResponse st), looped.2.1, looped.2.2)

/-! ## Concrete fixtures used by the witness theorems -/

def okPlan : Plan :=
  { intent := "trend", table := "cps_tb", metric := "issued_amnt", date_col := "issued_d",
    window := "last_30d", granularity := "weekly", segments := {}, chart := "line" }

/-- A plan whose only populated segment filter is `repeat_type = "ALL"`. -/
def planRepeatAll : Plan :=
  { okPlan with segments := { repeat_type := some "ALL" } }

def okInsight : Insight := { title := "Weekly issuance trend", summary := "Issuance grew." }

/-- Collaborators for which every stage succeeds. -/
def okCollab : Collaborators :=
  { classify := fun _ _ => Except.ok "trend"
    make_plan := fun _ _ _ => Except.ok okPlan
    run_sql := fun _ => Except.ok [1, 2]
    build_chart := fun _ _ => Except.ok 7
    summarize := fun _ _ => Except.ok okInsight
    explain := fun q => Except.ok ("Explained: " ++ q)
    memory_available := true }

/-- Same collaborators, but the intent classifier raises. -/
def failClassifyCollab : Collaborators :=
  { okCollab with classify := fun _ _ => Except.error "LLM unavailable" }

def emptyCache : PipelineCache := { max_size := 100, default_ttl := 600, data := [] }


/-! ## Claim-side predicates and reference formulations

These definitions follow the spec's wording; the theorems below compare
them with the embedded source functions.
-/

/-- Spec wording for channel/grade/prod_type: a populated value is accepted
exactly when it is the sentinel "ALL" or an allowed member. -/
def allowAllFieldOk (v : Option String) (allowed : List String) : Bool :=
  match v with
  | none => true
  | some s => s == "" || s == "ALL" || allowed.contains s

/-- Acceptance actually implemented for repeat_type/cr_fico_band/purpose:
a populated value must be a literal allowed member (no "ALL" sentinel). -/
def memberFieldOk (v : Option String) (allowed : List String) : Bool :=
  match v with
  | none => true
  | some s => s == "" || allowed.contains s

/-- Acceptance actually implemented for term: a populated (non-zero) value
must be a literal allowed member. -/
def termFieldOk (v : Option Int) : Bool :=
  match v with
  | none => true
  | some n => n == 0 || ALLOWED_SEGMENTS_term.contains n

/-- Acceptance of a whole `SegmentFilters` record under the implemented
per-field rules. -/
def segmentsOk (s : SegmentFilters) : Bool :=
  allowAllFieldOk s.channel ALLOWED_SEGMENTS_channel &&
  allowAllFieldOk s.grade ALLOWED_SEGMENTS_grade &&
  allowAllFieldOk s.prod_type ALLOWED_SEGMENTS_prod_type &&
  memberFieldOk s.repeat_type ALLOWED_SEGMENTS_repeat_type &&
  termFieldOk s.term &&
  memberFieldOk s.cr_fico_band ALLOWED_SEGMENTS_cr_fico_band &&
  memberFieldOk s.purpose ALLOWED_SEGMENTS_purpose

/-- The seven segment filter fields, in the order the validator checks
them. -/
inductive SegField where
  | channel
  | grade
  | prod_type
  | repeat_type
  | term
  | cr_fico_band
  | purpose
deriving DecidableEq, Repr

/-- The first segment field (in check order) whose value is rejected. -/
def firstOffender (s : SegmentFilters) : Option SegField :=
  if !allowAllFieldOk s.channel ALLOWED_SEGMENTS_channel then some SegField.channel
  else if !allowAllFieldOk s.grade ALLOWED_SEGMENTS_grade then some SegField.grade
  else if !allowAllFieldOk s.prod_type ALLOWED_SEGMENTS_prod_type then some SegField.prod_type
  else if !memberFieldOk s.repeat_type ALLOWED_SEGMENTS_repeat_type then some SegField.repeat_type
  else if !termFieldOk s.term then some SegField.term
  else if !memberFieldOk s.cr_fico_band ALLOWED_SEGMENTS_cr_fico_band then some SegField.cr_fico_band
  else if !memberFieldOk s.purpose ALLOWED_SEGMENTS_purpose then some SegField.purpose
  else none

/-- The error message the validator produces for an offending field: the
field name together with its allowed set. -/
def offenderMsg (s : SegmentFilters) : SegField → String
  | SegField.channel => msg_channel (s.channel.getD "")
  | SegField.grade => msg_grade (s.grade.getD "")
  | SegField.prod_type => msg_prod_type (s.prod_type.getD "")
  | SegField.repeat_type => msg_repeat_type (s.repeat_type.getD "")
  | SegField.term => msg_term (s.term.getD 0)
  | SegField.cr_fico_band => msg_cr_fico_band (s.cr_fico_band.getD "")
  | SegField.purpose => msg_purpose (s.purpose.getD "")

/-- Some denylisted keyword occurs as a whole word in the uppercased SQL —
the spec-side trigger condition of the forbidden-operation scan. -/
def anyDangerousKeyword (sql : String) : Bool :=
  DANGEROUS_KEYWORDS.any (fun kw => hasWordMatch (pyUpper sql) kw.data)

/-- `validate` restricted to its first three rules: the reference the
time-window-unreachability claim compares the full `validate` against. -/
def validateFirstThree (plan : Plan) (sql : String) : ValidationResult :=
  let sql_check := _check_sql_safety sql
  if !sql_check.is_valid then sql_check
  else
    let semicolon_check := _check_multiple_statements sql
    if !semicolon_check.is_valid then semicolon_check
    else
      let segment_check := _validate_segment_filters plan
      if !segment_check.is_valid then segment_check
      else { is_valid := true }

/-! ## Cache fixtures for the witness theorems -/

def entryA : CacheEntry Nat := { value := 1, created_at := 0, expires_at := 1000 }

def entryB : CacheEntry Nat := { value := 2, created_at := 0, expires_at := 1000 }

/-- A full two-slot cache: "a" least recently used, "b" most recently
used. -/
def cacheTwo : InMemoryLRUCache Nat :=
  { max_size := 2, default_ttl := 600, data := [("a", entryA), ("b", entryB)] }

/-- A cache holding one entry that expired at time 10. -/
def cacheExpired : InMemoryLRUCache Nat :=
  { max_size := 2, default_ttl := 600,
    data := [("k", { value := 5, created_at := 0, expires_at := 10 })] }

def emptyNatCache : InMemoryLRUCache Nat :=
  { max_size := 100, default_ttl := 600, data := [] }

/-- A `GraphState` holding a plan, as `guardrail_node` receives it. -/
def stWithPlan : GraphState := { initialState "show trend" [] with plan := some okPlan }

/-! ## Helper lemmas: segment filter validation -/

theorem optStr_allowAll_viol (v : Option String) (allowed : List String) :
    (optStrTruthy v && (v.getD "" != "ALL") && !(allowed.contains (v.getD ""))) =
      !allowAllFieldOk v allowed := by
  cases v <;> simp [optStrTruthy, allowAllFieldOk, Bool.not_or, Bool.and_assoc, bne]

theorem optStr_member_viol (v : Option String) (allowed : List String) :
    (optStrTruthy v && !(allowed.contains (v.getD ""))) = !memberFieldOk v allowed := by
  cases v <;> simp [optStrTruthy, memberFieldOk, Bool.not_or, bne]

theorem optInt_term_viol (v : Option Int) :
    (optIntTruthy v && !(ALLOWED_SEGMENTS_term.contains (v.getD 0))) = !termFieldOk v := by
  cases v <;> simp [optIntTruthy, termFieldOk, Bool.not_or, bne]

theorem chanViolation_eq (s : SegmentFilters) :
    chanViolation s = !allowAllFieldOk s.channel ALLOWED_SEGMENTS_channel :=
  optStr_allowAll_viol s.channel _

theorem gradeViolation_eq (s : SegmentFilters) :
    gradeViolation s = !allowAllFieldOk s.grade ALLOWED_SEGMENTS_grade :=
  optStr_allowAll_viol s.grade _

theorem prodTypeViolation_eq (s : SegmentFilters) :
    prodTypeViolation s = !allowAllFieldOk s.prod_type ALLOWED_SEGMENTS_prod_type :=
  optStr_allowAll_viol s.prod_type _

theorem repeatTypeViolation_eq (s : SegmentFilters) :
    repeatTypeViolation s = !memberFieldOk s.repeat_type ALLOWED_SEGMENTS_repeat_type :=
  optStr_member_viol s.repeat_type _

theorem termViolation_eq (s : SegmentFilters) : termViolation s = !termFieldOk s.term :=
  optInt_term_viol s.term

theorem crFicoViolation_eq (s : SegmentFilters) :
    crFicoViolation s = !memberFieldOk s.cr_fico_band ALLOWED_SEGMENTS_cr_fico_band :=
  optStr_member_viol s.cr_fico_band _

theorem purposeViolation_eq (s : SegmentFilters) :
    purposeViolation s = !memberFieldOk s.purpose ALLOWED_SEGMENTS_purpose :=
  optStr_member_viol s.purpose _

theorem bool_chain7 (a1 a2 a3 a4 a5 a6 a7 : Bool) :
    (if !a1 then false else if !a2 then false else if !a3 then false else if !a4 then false
      else if !a5 then false else if !a6 then false else if !a7 then false else true) =
      (a1 && a2 && a3 && a4 && a5 && a6 && a7) := by
  cases a1 <;> cases a2 <;> cases a3 <;> cases a4 <;> cases a5 <;> cases a6 <;> cases a7 <;> rfl

theorem vsf_is_valid (p : Plan) :
    (_validate_segment_filters p).is_valid = segmentsOk p.segments := by
  unfold _validate_segment_filters segmentsOk
  simp only [chanViolation_eq, gradeViolation_eq, prodTypeViolation_eq, repeatTypeViolation_eq,
    termViolation_eq, crFicoViolation_eq, purposeViolation_eq,
    apply_ite ValidationResult.is_valid]
  exact bool_chain7 _ _ _ _ _ _ _

theorem vsf_security (p : Plan) : (_validate_segment_filters p).security_event = false := by
  unfold _validate_segment_filters
  simp only [apply_ite ValidationResult.security_event]
  simp

theorem vsf_error (p : Plan) :
    (_validate_segment_filters p).error_message =
      (firstOffender p.segments).map (offenderMsg p.segments) := by
  unfold _validate_segment_filters firstOffender
  simp only [chanViolation_eq, gradeViolation_eq, prodTypeViolation_eq, repeatTypeViolation_eq,
    termViolation_eq, crFicoViolation_eq, purposeViolation_eq,
    apply_ite ValidationResult.error_message,
    apply_ite (Option.map (offenderMsg p.segments))]
  simp [offenderMsg]

/-! ## Helper lemmas: time window and the full validate cascade -/

theorem windowDaysOf_le (w : String) : windowDaysOf w ≤ 93 := by
  unfold windowDaysOf
  simp [assocLookup, window_days]
  split_ifs <;> simp

theorem vtw_eq (p : Plan) : _validate_time_window p = { is_valid := true } := by
  unfold _validate_time_window
  have h := windowDaysOf_le p.window
  rw [if_neg]
  simp only [MAX_TIME_WINDOW_DAYS]
  omega

theorem css_empty : _check_sql_safety "" = { is_valid := true } := by decide

theorem cms_empty : _check_multiple_statements "" = { is_valid := true } := by decide

theorem validate_empty_sql (p : Plan) :
    validate p "" =
      (if (_validate_segment_filters p).is_valid then ({ is_valid := true } : ValidationResult)
        else _validate_segment_filters p) := by
  cases h : (_validate_segment_filters p).is_valid <;>
    simp [validate, css_empty, cms_empty, vtw_eq, h]

theorem validate_empty_security (p : Plan) : (validate p "").security_event = false := by
  rw [validate_empty_sql]
  cases h : (_validate_segment_filters p).is_valid <;> simp [h, vsf_security]

theorem validate_empty_is_valid (p : Plan) :
    (validate p "").is_valid =
      ((_validate_segment_filters p).is_valid && (_validate_time_window p).is_valid) := by
  rw [validate_empty_sql, vtw_eq]
  cases h : (_validate_segment_filters p).is_valid <;> simp [h]

/-! ## Helper lemmas: the forbidden-keyword scan -/

theorem css_dangerous (sql : String) (h : anyDangerousKeyword sql = true) :
    _check_sql_safety sql =
      { is_valid := false
        error_message := some ("SQL query contains forbidden keyword: " ++
          ((DANGEROUS_KEYWORDS.find? (fun kw => hasWordMatch (pyUpper sql) kw.data)).getD ""))
        security_event := true } := by
  unfold _check_sql_safety
  cases hf : DANGEROUS_KEYWORDS.find? (fun kw => hasWordMatch (pyUpper sql) kw.data) with
  | none =>
    exfalso
    rw [List.find?_eq_none] at hf
    rw [anyDangerousKeyword, List.any_eq_true] at h
    obtain ⟨kw, hm, hp⟩ := h
    exact hf kw hm hp
  | some kw => simp [hf]

theorem validate_dangerous (p : Plan) (sql : String) (h : anyDangerousKeyword sql = true) :
    (validate p sql).is_valid = false ∧ (validate p sql).security_event = true := by
  unfold validate
  rw [css_dangerous sql h]
  simp

/-! ## Helper lemmas: pipeline state plumbing -/

theorem optStrTruthy_append (a b : String) (h : a ≠ "") :
    optStrTruthy (some (a ++ b)) = true := by
  have hne : a ++ b ≠ "" := by
    intro hc
    apply h
    have hd : (a ++ b).data = ([] : List Char) := by rw [hc]
    rw [String.data_append] at hd
    rcases List.append_eq_nil.mp hd with ⟨h1, _⟩
    cases a
    simp_all
  simp [optStrTruthy, bne, hne]

theorem planner_node_intent (C : Collaborators) (st : GraphState) :
    (planner_node C st).intent = st.intent := by
  unfold planner_node
  cases C.make_plan st.user_query st.intent st.conversation_history <;> rfl

theorem planner_node_cache_hit (C : Collaborators) (st : GraphState) :
    (planner_node C st).cache_hit = st.cache_hit := by
  unfold planner_node
  cases C.make_plan st.user_query st.intent st.conversation_history <;> rfl

theorem planner_node_error_truthy (C : Collaborators) (st : GraphState)
    (h : optStrTruthy st.error = true) : optStrTruthy (planner_node C st).error = true := by
  unfold planner_node
  cases C.make_plan st.user_query st.intent st.conversation_history with
  | ok plan => exact h
  | error e => exact optStrTruthy_append "Query planning failed: " e (by decide)

theorem cache_check_node_intent (now : Int) (st : GraphState) (cache : PipelineCache) :
    ((cache_check_node now st cache).1).intent = st.intent := by
  unfold cache_check_node
  split
  · rfl
  · cases hg : cache.get now (st.cache_key.getD "") with
    | mk o c2 => cases o <;> simp [hg]

theorem cache_check_node_error (now : Int) (st : GraphState) (cache : PipelineCache) :
    ((cache_check_node now st cache).1).error = st.error := by
  unfold cache_check_node
  split
  · rfl
  · cases hg : cache.get now (st.cache_key.getD "") with
    | mk o c2 => cases o <;> simp [hg]

theorem guardrail_node_intent (st : GraphState) : (guardrail_node st).intent = st.intent := by
  unfold guardrail_node
  cases st.plan with
  | none => rfl
  | some p => dsimp only; split <;> rfl

theorem guardrail_node_cache_hit (st : GraphState) :
    (guardrail_node st).cache_hit = st.cache_hit := by
  unfold guardrail_node
  cases st.plan with
  | none => rfl
  | some p => dsimp only; split <;> rfl

theorem sql_executor_node_intent (C : Collaborators) (st : GraphState) :
    (sql_executor_node C st).intent = st.intent := by
  unfold sql_executor_node
  cases st.plan with
  | none => rfl
  | some p => dsimp only; cases C.run_sql p <;> rfl

theorem sql_executor_node_cache_hit (C : Collaborators) (st : GraphState) :
    (sql_executor_node C st).cache_hit = st.cache_hit := by
  unfold sql_executor_node
  cases st.plan with
  | none => rfl
  | some p => dsimp only; cases C.run_sql p <;> rfl

theorem chart_node_intent (C : Collaborators) (st : GraphState) :
    (chart_node C st).intent = st.intent := by
  unfold chart_node
  cases st.plan with
  | none => rfl
  | some p =>
    cases st.df_dict with
    | none => rfl
    | some rows =>
      dsimp only
      split
      · rfl
      · cases C.build_chart p rows <;> rfl

theorem chart_node_cache_hit (C : Collaborators) (st : GraphState) :
    (chart_node C st).cache_hit = st.cache_hit := by
  unfold chart_node
  cases st.plan with
  | none => rfl
  | some p =>
    cases st.df_dict with
    | none => rfl
    | some rows =>
      dsimp only
      split
      · rfl
      · cases C.build_chart p rows <;> rfl

theorem insights_node_intent (C : Collaborators) (st : GraphState) :
    (insights_node C st).intent = st.intent := by
  unfold insights_node
  cases st.plan with
  | none => rfl
  | some p =>
    cases st.df_dict with
    | none => rfl
    | some rows =>
      dsimp only
      split
      · rfl
      · cases C.summarize p rows <;> rfl

theorem insights_node_cache_hit (C : Collaborators) (st : GraphState) :
    (insights_node C st).cache_hit = st.cache_hit := by
  unfold insights_node
  cases st.plan with
  | none => rfl
  | some p =>
    cases st.df_dict with
    | none => rfl
    | some rows =>
      dsimp only
      split
      · rfl
      · cases C.summarize p rows <;> rfl

theorem cache_store_node_state (now : Int) (st : GraphState) (cache : PipelineCache) :
    (cache_store_node now st cache).1 = st := by
  unfold cache_store_node
  split_ifs <;> rfl

theorem cache_store_node_writes (now : Int) (st : GraphState) (cache : PipelineCache)
    (h : (cache_store_node now st cache).2.2 ≠ []) :
    optStrTruthy st.error = false ∧ dfTruthy st.df_dict = true ∧
      ¬(st.chart_spec = none ∧ st.insight = none) := by
  unfold cache_store_node at h
  split_ifs at h with h1 h2 h3 h4
  · simp at h
  · simp at h
  · simp at h
  · simp at h
  · refine ⟨?_, ?_, ?_⟩
    · simpa using h2
    · simpa using h3
    · simpa [not_and_or] using h4

/-! ## Helper lemmas: association lists and the LRU cache -/

theorem assocLookup_eq_none {α β : Type} [DecidableEq α] (k : α) (l : List (α × β)) :
    assocLookup k l = none ↔ ∀ kv ∈ l, kv.1 ≠ k := by
  induction l with
  | nil => simp [assocLookup]
  | cons hd tl ih =>
    obtain ⟨k2, v⟩ := hd
    by_cases h : k = k2
    · subst h
      simp [assocLookup]
    · simp [assocLookup, h, ih]
      intro _
      exact fun hc => h hc.symm

theorem assocLookup_append_left_none {α β : Type} [DecidableEq α] (k : α)
    (l1 l2 : List (α × β)) (h : assocLookup k l1 = none) :
    assocLookup k (l1 ++ l2) = assocLookup k l2 := by
  induction l1 with
  | nil => rfl
  | cons hd tl ih =>
    obtain ⟨k2, v⟩ := hd
    by_cases hk : k = k2
    · subst hk
      simp [assocLookup] at h
    · simp [assocLookup, hk] at h ⊢
      exact ih h

theorem eraseKey_keys_ne {α : Type} (k : String) (l : List (String × CacheEntry α)) :
    ∀ kv ∈ eraseKey k l, kv.1 ≠ k := by
  intro kv hm
  have := (List.mem_filter.mp hm).2
  simpa [bne] using this

theorem assocLookup_eraseKey {α : Type} (k : String) (l : List (String × CacheEntry α)) :
    assocLookup k (eraseKey k l) = none :=
  (assocLookup_eq_none k _).mpr (eraseKey_keys_ne k l)

theorem eraseKey_of_absent {α : Type} (k : String) (l : List (String × CacheEntry α))
    (h : assocLookup k l = none) : eraseKey k l = l := by
  rw [assocLookup_eq_none] at h
  apply List.filter_eq_self.mpr
  intro kv hm
  simpa [bne] using h kv hm

theorem eraseKey_cons_self {α : Type} (k : String) (v : CacheEntry α)
    (tl : List (String × CacheEntry α)) :
    eraseKey k ((k, v) :: tl) = eraseKey k tl := by
  simp [eraseKey, List.filter_cons]

theorem eraseKey_cons_ne {α : Type} (k k2 : String) (v : CacheEntry α)
    (tl : List (String × CacheEntry α)) (h : k2 ≠ k) :
    eraseKey k ((k2, v) :: tl) = (k2, v) :: eraseKey k tl := by
  simp [eraseKey, List.filter_cons, bne, h]

theorem eraseKey_length_of_mem {α : Type} (k : String) (l : List (String × CacheEntry α))
    (hnd : (l.map Prod.fst).Nodup) (e : CacheEntry α) (h : assocLookup k l = some e) :
    (eraseKey k l).length + 1 = l.length := by
  induction l with
  | nil => simp [assocLookup] at h
  | cons hd tl ih =>
    obtain ⟨k2, v⟩ := hd
    simp only [List.map_cons, List.nodup_cons] at hnd
    by_cases hk : k = k2
    · subst hk
      rw [eraseKey_cons_self]
      have htl : assocLookup k tl = none := by
        rw [assocLookup_eq_none]
        intro kv hm hc
        exact hnd.1 (hc ▸ List.mem_map_of_mem Prod.fst hm)
      rw [eraseKey_of_absent k tl htl]
      simp
    · have hlk : assocLookup k tl = some e := by
        simpa [assocLookup, hk] using h
      rw [eraseKey_cons_ne k k2 v tl (fun hc => hk hc.symm)]
      simp only [List.length_cons]
      have := ih hnd.2 hlk
      omega

theorem assocLookup_of_set {α : Type} (c : InMemoryLRUCache α) (now : Int) (k : String)
    (v : α) (ex : Option Int) (hmax : 1 ≤ c.max_size) :
    assocLookup k (c.set now k v ex).data =
      some (mkCacheEntry v now (ex.getD c.default_ttl)) := by
  unfold InMemoryLRUCache.set
  dsimp only
  set e := mkCacheEntry v now (ex.getD c.default_ttl) with he
  set d := eraseKey k c.data ++ [(k, e)] with hd
  have hbase : assocLookup k d = some e := by
    rw [hd, assocLookup_append_left_none k _ _ (assocLookup_eraseKey k c.data)]
    simp [assocLookup]
  split
  · next hlen =>
    -- eviction: d.tail; the erased prefix is nonempty since d.length > max_size ≥ 1
    cases herase : eraseKey k c.data with
    | nil =>
      rw [hd, herase] at hlen
      simp at hlen
      omega
    | cons hd0 tl0 =>
      rw [hd, herase]
      simp only [List.cons_append, List.tail_cons]
      have h0 : assocLookup k tl0 = none := by
        rw [assocLookup_eq_none]
        intro kv hm
        exact eraseKey_keys_ne k c.data kv (by rw [herase]; exact List.mem_cons_of_mem _ hm)
      rw [assocLookup_append_left_none k _ _ h0]
      simp [assocLookup]
  · exact hbase

/-! ## Helper lemmas: the retry loop -/

theorem runQueryLoop_count_le (C : Collaborators) (now : Int) (q : String)
    (hist : List (String × String)) :
    ∀ (k : Nat) (cache : PipelineCache) (last : Option GraphState),
      (runQueryLoop C now q hist k cache last).2.2 ≤ k := by
  intro k
  induction k with
  | zero => intro cache last; simp [runQueryLoop]
  | succ n ih =>
    intro cache last
    simp only [runQueryLoop]
    split
    · simp
    · dsimp only
      have := ih (runGraph C now cache q hist).cache (some (runGraph C now cache q hist).state)
      omega

theorem runQueryLoop_isSome_of_last (C : Collaborators) (now : Int) (q : String)
    (hist : List (String × String)) :
    ∀ (k : Nat) (cache : PipelineCache) (st0 : GraphState),
      (runQueryLoop C now q hist k cache (some st0)).1.isSome = true := by
  intro k
  induction k with
  | zero => intro cache st0; simp [runQueryLoop]
  | succ n ih =>
    intro cache st0
    simp only [runQueryLoop]
    split
    · simp
    · exact ih _ _

theorem runQueryLoop_succ_isSome (C : Collaborators) (now : Int) (q : String)
    (hist : List (String × String)) (k : Nat) (cache : PipelineCache)
    (last : Option GraphState) :
    (runQueryLoop C now q hist (k + 1) cache last).1.isSome = true := by
  simp only [runQueryLoop]
  split
  · simp
  · exact runQueryLoop_isSome_of_last C now q hist k _ _

/-! ## Claim theorems -/

theorem validate_valid_segments (p : Plan) (sql : String)
    (h : (validate p sql).is_valid = true) : (_validate_segment_filters p).is_valid = true := by
  unfold validate at h
  by_cases h1 : (_check_sql_safety sql).is_valid = true
  · by_cases h2 : (_check_multiple_statements sql).is_valid = true
    · by_cases h3 : (_validate_segment_filters p).is_valid = true
      · exact h3
      · simp only [Bool.not_eq_true] at h3
        simp [h1, h2, h3] at h
    · simp only [Bool.not_eq_true] at h2
      simp [h1, h2] at h
  · simp only [Bool.not_eq_true] at h1
    simp [h1] at h

/-- C10: the time-window rule's rejection branch is unreachable: every
window code known to the validator maps to at most 93 days, every unknown
code defaults to 30 days, both below the 365-day ceiling, so
`_validate_time_window` accepts every plan and `validate` coincides with
its first three rules. -/
theorem time_window_rule_unreachable :
    (∀ p : Plan, _validate_time_window p = { is_valid := true }) ∧
    (∀ w : String, windowDaysOf w ≤ 93 ∧ windowDaysOf w ≤ MAX_TIME_WINDOW_DAYS) ∧
    (∀ (p : Plan) (sql : String), validate p sql = validateFirstThree p sql) := by
  refine ⟨vtw_eq, fun w => ⟨windowDaysOf_le w, ?_⟩, fun p sql => ?_⟩
  · have := windowDaysOf_le w
    simp only [MAX_TIME_WINDOW_DAYS]
    omega
  · unfold validate validateFirstThree
    simp only [vtw_eq]
    rfl

/-- C2 (amended): `_validate_segment_filters` accepts a populated channel,
grade or prod_type value exactly when it is "ALL" or an allowed member,
but accepts a populated repeat_type, term, cr_fico_band or purpose value
only when it is a literal allowed member (the sentinel "ALL" is rejected
for those four fields); a rejection reports the first offending field in
check order with that field's allowed set, and is never a security event;
`validate` accepts only if the segment scan accepts. -/
theorem segment_filter_acceptance :
    (∀ p : Plan, (_validate_segment_filters p).is_valid = segmentsOk p.segments) ∧
    (∀ p : Plan, (_validate_segment_filters p).security_event = false) ∧
    (∀ p : Plan, (_validate_segment_filters p).error_message =
        (firstOffender p.segments).map (offenderMsg p.segments)) ∧
    (∀ (p : Plan) (sql : String), (validate p sql).is_valid = true →
        (_validate_segment_filters p).is_valid = true) :=
  ⟨vsf_is_valid, vsf_security, vsf_error, validate_valid_segments⟩

theorem segment_filter_acceptance_witness :
    (validate okPlan "SELECT issued_amnt FROM cps_tb").is_valid = true ∧
    (_validate_segment_filters okPlan).is_valid = true := by
  have h : (validate okPlan "SELECT issued_amnt FROM cps_tb").is_valid = true := by
    decide
  exact ⟨h, segment_filter_acceptance.2.2.2 okPlan _ h⟩

/-- C2 counterexample: the claim says every populated segment filter value
equal to the sentinel "ALL" is accepted, but a plan whose `repeat_type` is
"ALL" is rejected by `validate` (as an ordinary, non-security failure). -/
theorem segment_filter_all_sentinel_rejected :
    planRepeatAll.segments.repeat_type = some "ALL" ∧
    (validate planRepeatAll "SELECT 1").is_valid = false ∧
    (validate planRepeatAll "SELECT 1").security_event = false := by
  decide

/-- C7: whenever a denylisted keyword occurs as a whole word
(case-insensitively) in the SQL text, `validate` rejects with the security
flag; the keyword occurring only inside a longer identifier (here
INSERT inside INSERT_DATE) does not trigger the scan. -/
theorem forbidden_keyword_security :
    (∀ (p : Plan) (sql : String), anyDangerousKeyword sql = true →
        (validate p sql).is_valid = false ∧ (validate p sql).security_event = true) ∧
    (_check_sql_safety "SELECT INSERT_DATE FROM cps_tb").is_valid = true ∧
    anyDangerousKeyword "SELECT INSERT_DATE FROM cps_tb" = false := by
  refine ⟨fun p sql h => validate_dangerous p sql h, by decide, by decide⟩

theorem forbidden_keyword_security_witness :
    anyDangerousKeyword "DROP TABLE cps_tb" = true ∧
    ((validate okPlan "DROP TABLE cps_tb").is_valid = false ∧
      (validate okPlan "DROP TABLE cps_tb").security_event = true) := by
  have h : anyDangerousKeyword "DROP TABLE cps_tb" = true := by decide
  exact ⟨h, forbidden_keyword_security.1 okPlan _ h⟩

/-- C9: the orchestrated pipeline invokes `guardrail.validate` with the
empty string as the SQL text; on the empty string the forbidden-keyword
rule and the multiple-statement rule always pass, so no security-flagged
rejection can arise and the pipeline's validation outcome is decided by
the segment filters and the time window alone. -/
theorem guardrail_node_empty_sql :
    (_check_sql_safety "").is_valid = true ∧
    (_check_multiple_statements "").is_valid = true ∧
    (∀ p : Plan, (validate p "").security_event = false) ∧
    (∀ p : Plan, (validate p "").is_valid =
        ((_validate_segment_filters p).is_valid && (_validate_time_window p).is_valid)) ∧
    (∀ (st : GraphState) (p : Plan), st.plan = some p →
        guardrail_node st =
          (if (validate p "").is_valid then st
            else { st with error := (validate p "").error_message })) := by
  refine ⟨by rw [css_empty], by rw [cms_empty], validate_empty_security,
    validate_empty_is_valid, fun st p h => ?_⟩
  unfold guardrail_node
  rw [h]
  dsimp only
  cases hv : (validate p "").is_valid <;> simp [hv]

theorem guardrail_node_empty_sql_witness :
    stWithPlan.plan = some okPlan ∧
    guardrail_node stWithPlan =
      (if (validate okPlan "").is_valid then stWithPlan
        else { stWithPlan with error := (validate okPlan "").error_message }) :=
  ⟨rfl, guardrail_node_empty_sql.2.2.2.2 stWithPlan okPlan rfl⟩

/-- C6: `get` returns absent at every read time strictly after
`expires_at` even without an intervening `set` or eviction (and removes
the expired entry); an entry just stored with TTL `t` at time `s` carries
`expires_at = s + t`, so it reads as absent at any time after `s + t`; in
particular a TTL ≤ 0 makes the entry expired at the very next read. -/
theorem cache_lazy_expiry :
    (∀ (α : Type) (c : InMemoryLRUCache α) (k : String) (e : CacheEntry α) (now : Int),
        assocLookup k c.data = some e → now > e.expires_at →
        (c.get now k).1 = none ∧ assocLookup k ((c.get now k).2).data = none) ∧
    (∀ (α : Type) (c : InMemoryLRUCache α) (k : String) (v : α) (ttl s : Int),
        1 ≤ c.max_size →
        assocLookup k ((c.set s k v (some ttl)).data) =
          some { value := v, created_at := s, expires_at := s + ttl }) ∧
    (∀ (α : Type) (c : InMemoryLRUCache α) (k : String) (v : α) (ttl s now : Int),
        1 ≤ c.max_size → now > s + ttl →
        ((c.set s k v (some ttl)).get now k).1 = none) ∧
    (∀ (α : Type) (c : InMemoryLRUCache α) (k : String) (v : α) (ttl s now : Int),
        1 ≤ c.max_size → ttl ≤ 0 → now > s →
        ((c.set s k v (some ttl)).get now k).1 = none) := by
  have hexpired : ∀ (α : Type) (c : InMemoryLRUCache α) (k : String) (e : CacheEntry α)
      (now : Int), assocLookup k c.data = some e → now > e.expires_at →
      (c.get now k).1 = none ∧ assocLookup k ((c.get now k).2).data = none := by
    intro α c k e now hl hx
    have hb : e.is_expired now = true := by
      simp [CacheEntry.is_expired, hx]
    unfold InMemoryLRUCache.get
    rw [hl]
    dsimp only
    rw [hb]
    exact ⟨rfl, assocLookup_eraseKey k c.data⟩
  have hset : ∀ (α : Type) (c : InMemoryLRUCache α) (k : String) (v : α) (ttl s : Int),
      1 ≤ c.max_size →
      assocLookup k ((c.set s k v (some ttl)).data) =
        some { value := v, created_at := s, expires_at := s + ttl } := by
    intro α c k v ttl s hmax
    exact assocLookup_of_set c s k v (some ttl) hmax
  have hset_expired : ∀ (α : Type) (c : InMemoryLRUCache α) (k : String) (v : α)
      (ttl s now : Int), 1 ≤ c.max_size → now > s + ttl →
      ((c.set s k v (some ttl)).get now k).1 = none := by
    intro α c k v ttl s now hmax hgt
    exact (hexpired α _ k _ now (hset α c k v ttl s hmax) hgt).1
  refine ⟨hexpired, hset, hset_expired, ?_⟩
  intro α c k v ttl s now hmax httl hnow
  exact hset_expired α c k v ttl s now hmax (by omega)

theorem cache_lazy_expiry_witness :
    assocLookup "k" cacheExpired.data =
      some { value := 5, created_at := 0, expires_at := 10 } ∧
    (11 : Int) > (10 : Int) ∧
    (cacheExpired.get 11 "k").1 = none ∧
    assocLookup "k" ((cacheExpired.get 11 "k").2).data = none := by
  have h1 : assocLookup "k" cacheExpired.data =
      some { value := 5, created_at := 0, expires_at := 10 } := by decide
  have h2 := cache_lazy_expiry.1 Nat cacheExpired "k"
    { value := 5, created_at := 0, expires_at := 10 } 11 h1 (by norm_num)
  exact ⟨h1, by norm_num, h2.1, h2.2⟩

/-- C5: on a cache holding `max_size` keys, `set` with a fresh key evicts
exactly the front (least-recently-accessed) entry and leaves the size at
`max_size`; a preceding `get` on a live entry moves it to the
most-recently-used end, so the following eviction (capacity ≥ 2) removes a
different entry and the got key survives; `set` on an existing key
replaces it in place at the most-recently-used end without changing the
entry count. -/
theorem cache_lru_eviction :
    (∀ (α : Type) (c : InMemoryLRUCache α) (k : String) (v : α) (ex : Option Int) (now : Int),
        c.data.length = c.max_size → 1 ≤ c.max_size → assocLookup k c.data = none →
        (c.set now k v ex).data =
          c.data.tail ++ [(k, mkCacheEntry v now (ex.getD c.default_ttl))] ∧
        (c.set now k v ex).data.length = c.max_size) ∧
    (∀ (α : Type) (c : InMemoryLRUCache α) (k0 : String) (e0 : CacheEntry α)
        (knew : String) (v : α) (ex : Option Int) (now now2 : Int),
        c.data.length = c.max_size → 2 ≤ c.max_size →
        (c.data.map Prod.fst).Nodup →
        assocLookup k0 c.data = some e0 → e0.is_expired now = false →
        assocLookup knew c.data = none →
        assocLookup k0 (((c.get now k0).2).set now2 knew v ex).data = some e0 ∧
        (((c.get now k0).2).set now2 knew v ex).data.length = c.max_size) ∧
    (∀ (α : Type) (c : InMemoryLRUCache α) (k : String) (e0 : CacheEntry α) (v : α)
        (ex : Option Int) (now : Int),
        (c.data.map Prod.fst).Nodup → assocLookup k c.data = some e0 →
        c.data.length ≤ c.max_size →
        (c.set now k v ex).data =
          eraseKey k c.data ++ [(k, mkCacheEntry v now (ex.getD c.default_ttl))] ∧
        (c.set now k v ex).data.length = c.data.length) := by
  refine ⟨?_, ?_, ?_⟩
  · -- eviction of the least-recently-used entry on a fresh key
    intro α c k v ex now hlen hmax hab
    simp only [InMemoryLRUCache.set]
    rw [eraseKey_of_absent k c.data hab]
    have hgt : (c.data ++ [(k, mkCacheEntry v now (ex.getD c.default_ttl))]).length >
        c.max_size := by
      simp [hlen]
    rw [if_pos hgt]
    cases hd : c.data with
    | nil =>
      rw [hd] at hlen
      simp at hlen
      omega
    | cons a t =>
      rw [hd] at hlen
      simp only [List.length_cons] at hlen
      constructor
      · simp
      · simp
        omega
  · -- a preceding get protects the entry from the eviction
    intro α c k0 e0 knew v ex now now2 hlen hmax hnd hk0 hexp hknew
    have hget : (c.get now k0).2.data = eraseKey k0 c.data ++ [(k0, e0)] := by
      unfold InMemoryLRUCache.get
      rw [hk0]
      dsimp only
      rw [hexp]
      rfl
    have herase_len : (eraseKey k0 c.data).length + 1 = c.max_size := by
      rw [← hlen]
      exact eraseKey_length_of_mem k0 c.data hnd e0 hk0
    have hknew_ne : knew ≠ k0 := by
      intro hc
      rw [hc, hk0] at hknew
      exact Option.noConfusion hknew
    have hknew1 : assocLookup knew ((c.get now k0).2).data = none := by
      rw [hget, assocLookup_eq_none]
      intro kv hm
      rcases List.mem_append.mp hm with hm1 | hm2
      · exact (assocLookup_eq_none knew c.data).mp hknew kv (List.mem_of_mem_filter hm1)
      · simp at hm2
        rw [hm2]
        exact fun hc => hknew_ne hc.symm
    simp only [InMemoryLRUCache.set]
    rw [eraseKey_of_absent knew _ hknew1]
    have hlen1 : ((c.get now k0).2).data.length = c.max_size := by
      rw [hget]
      simp
      omega
    have hgt : (((c.get now k0).2).data ++
        [(knew, mkCacheEntry v now2 (ex.getD (c.get now k0).2.default_ttl))]).length >
        (c.get now k0).2.max_size := by
      have hm : (c.get now k0).2.max_size = c.max_size := by
        unfold InMemoryLRUCache.get
        rw [hk0]
        dsimp only
        rw [hexp]
        rfl
      simp [hlen1, hm]
    rw [if_pos hgt]
    cases herase : eraseKey k0 c.data with
    | nil =>
      rw [herase] at herase_len
      simp at herase_len
      omega
    | cons a t =>
      rw [herase] at herase_len
      simp only [List.length_cons] at herase_len
      rw [hget, herase]
      constructor
      · simp only [List.cons_append, List.tail_cons, List.append_assoc]
        have ht : assocLookup k0 t = none := by
          rw [assocLookup_eq_none]
          intro kv hm
          exact eraseKey_keys_ne k0 c.data kv (by rw [herase]; exact List.mem_cons_of_mem _ hm)
        rw [assocLookup_append_left_none k0 _ _ ht]
        simp [assocLookup]
      · simp
        omega
  · -- replacing an existing key keeps the entry count
    intro α c k e0 v ex now hnd hk hle
    simp only [InMemoryLRUCache.set]
    have herase_len : (eraseKey k c.data).length + 1 = c.data.length :=
      eraseKey_length_of_mem k c.data hnd e0 hk
    have hnogt : ¬((eraseKey k c.data ++ [(k, mkCacheEntry v now (ex.getD c.default_ttl))]).length >
        c.max_size) := by
      simp
      omega
    rw [if_neg hnogt]
    constructor
    · rfl
    · simp
      omega

theorem cache_lru_eviction_witness :
    assocLookup "c" cacheTwo.data = none ∧
    (cacheTwo.set 5 "c" 3 none).data =
      cacheTwo.data.tail ++ [("c", mkCacheEntry 3 5 600)] ∧
    assocLookup "a" (((cacheTwo.get 5 "a").2).set 6 "c" 3 none).data = some entryA ∧
    (((cacheTwo.get 5 "a").2).set 6 "c" 3 none).data.length = 2 ∧
    (cacheTwo.set 7 "b" 9 none).data.length = cacheTwo.data.length := by
  have h1 := cache_lru_eviction.1 Nat cacheTwo "c" 3 none 5
    (by decide) (by decide) (by decide)
  have h2 := cache_lru_eviction.2.1 Nat cacheTwo "a" entryA "c" 3 none 5 6
    (by decide) (by decide) (by decide) (by decide) (by decide) (by decide)
  have h3 := cache_lru_eviction.2.2 Nat cacheTwo "b" entryB 9 none 7
    (by decide) (by decide) (by decide)
  exact ⟨by decide, h1.1, h2.1, h2.2, h3.2⟩

theorem canonicalSegments_perm (e1 e2 : List (String × String)) (h : e1.Perm e2) :
    canonicalSegments e1 = canonicalSegments e2 := by
  unfold canonicalSegments
  apply List.eq_of_perm_of_sorted (r := fun a b : String => a ≤ b)
  · exact (List.perm_insertionSort _ _).trans
      ((h.map _).trans (List.perm_insertionSort _ _).symm)
  · exact List.sorted_insertionSort _ _
  · exact List.sorted_insertionSort _ _

/-- C1: the fingerprint is a function of the Plan's field values alone —
two Plans with field-for-field identical values whose segment maps hold
the same entries, in any entry order, have the same `cache_key`; the
fingerprint is the digest of the deterministic, order-stable canonical
serialization. -/
theorem cache_key_fingerprint_stable :
    (∀ (p1 p2 : Plan) (e1 e2 : List (String × String)),
        p1.intent = p2.intent → p1.table = p2.table → p1.metric = p2.metric →
        p1.date_col = p2.date_col → p1.window = p2.window →
        p1.granularity = p2.granularity → p1.chart = p2.chart →
        e1.Perm e2 → fingerprintWith p1 e1 = fingerprintWith p2 e2) ∧
    (∀ p1 p2 : Plan,
        p1.intent = p2.intent → p1.table = p2.table → p1.metric = p2.metric →
        p1.date_col = p2.date_col → p1.window = p2.window →
        p1.granularity = p2.granularity → p1.chart = p2.chart →
        (segmentEntries p1.segments).Perm (segmentEntries p2.segments) →
        p1.cache_key = p2.cache_key) := by
  have main : ∀ (p1 p2 : Plan) (e1 e2 : List (String × String)),
      p1.intent = p2.intent → p1.table = p2.table → p1.metric = p2.metric →
      p1.date_col = p2.date_col → p1.window = p2.window →
      p1.granularity = p2.granularity → p1.chart = p2.chart →
      e1.Perm e2 → fingerprintWith p1 e1 = fingerprintWith p2 e2 := by
    intro p1 p2 e1 e2 h1 h2 h3 h4 h5 h6 h7 hp
    unfold fingerprintWith canonicalSerialize
    rw [h1, h2, h3, h4, h5, h6, h7, canonicalSegments_perm e1 e2 hp]
  exact ⟨main, fun p1 p2 h1 h2 h3 h4 h5 h6 h7 hp =>
    main p1 p2 _ _ h1 h2 h3 h4 h5 h6 h7 hp⟩

theorem cache_key_fingerprint_stable_witness :
    List.Perm [(("channel" : String), ("Email" : String)), ("grade", "P1")]
      [("grade", "P1"), ("channel", "Email")] ∧
    fingerprintWith okPlan [("channel", "Email"), ("grade", "P1")] =
      fingerprintWith okPlan [("grade", "P1"), ("channel", "Email")] := by
  have hp : List.Perm [(("channel" : String), ("Email" : String)), ("grade", "P1")]
      [("grade", "P1"), ("channel", "Email")] := by decide
  exact ⟨hp, cache_key_fingerprint_stable.1 okPlan okPlan _ _
    rfl rfl rfl rfl rfl rfl rfl hp⟩

/-- C3 (amended): when the intent classifier raises, the router substitutes
the default intent "trend" and records the classification error; planning
(and the cache lookup) still run, but `should_skip_execution` then ends the
attempt because of the recorded error, so the guardrail and SQL-executor
stages never run, nothing is written to cache, and the terminal state
carries a truthy error (to be retried by `run_query`). -/
theorem classifier_failure_short_circuit :
    ∀ (C : Collaborators) (now : Int) (cache : PipelineCache) (q : String)
      (hist : List (String × String)) (e : String),
      C.classify q hist = Except.error e →
      (runGraph C now cache q hist).state.intent = some "trend" ∧
      optStrTruthy (runGraph C now cache q hist).state.error = true ∧
      (runGraph C now cache q hist).plan_calls = 1 ∧
      (runGraph C now cache q hist).validate_calls = 0 ∧
      (runGraph C now cache q hist).sql_calls = 0 ∧
      (runGraph C now cache q hist).writes = [] := by
  intro C now cache q hist e h
  have herr : ∀ st : GraphState,
      st.error = some ("Intent classification failed: " ++ e) →
      optStrTruthy ((cache_check_node now (planner_node C st) cache).1).error = true := by
    intro st hst
    rw [cache_check_node_error]
    apply planner_node_error_truthy
    rw [hst]
    exact optStrTruthy_append "Intent classification failed: " e (by decide)
  unfold runGraph router_node initialState
  dsimp only
  rw [h]
  rw [if_neg (by simp)]
  split
  case isTrue h2 =>
    dsimp only
    refine ⟨?_, ?_, rfl, rfl, rfl, rfl⟩
    · rw [cache_check_node_intent, planner_node_intent]
    · exact herr _ rfl
  case isFalse h2 =>
    exfalso
    apply h2
    rw [herr _ rfl]
    simp

theorem classifier_failure_short_circuit_witness :
    failClassifyCollab.classify "q" [] = Except.error "LLM unavailable" ∧
    (runGraph failClassifyCollab 0 emptyCache "q" []).state.intent = some "trend" ∧
    optStrTruthy (runGraph failClassifyCollab 0 emptyCache "q" []).state.error = true ∧
    (runGraph failClassifyCollab 0 emptyCache "q" []).validate_calls = 0 ∧
    (runGraph failClassifyCollab 0 emptyCache "q" []).sql_calls = 0 := by
  have h := classifier_failure_short_circuit failClassifyCollab 0 emptyCache "q" []
    "LLM unavailable" rfl
  exact ⟨rfl, h.1, h.2.1, h.2.2.2.1, h.2.2.2.2.1⟩

/-- C3 counterexample: with a failing classifier and otherwise successful
collaborators the run substitutes intent "trend" and still produces a
plan, but terminates carrying the classification error, with the guardrail
and executor stages never run and no rows produced — against the claim
that the pipeline still proceeds through validation and execution. -/
theorem classifier_failure_counterexample :
    (runGraph failClassifyCollab 0 emptyCache "q" []).state.error =
      some "Intent classification failed: LLM unavailable" ∧
    (runGraph failClassifyCollab 0 emptyCache "q" []).state.intent = some "trend" ∧
    (runGraph failClassifyCollab 0 emptyCache "q" []).state.plan = some okPlan ∧
    (runGraph failClassifyCollab 0 emptyCache "q" []).validate_calls = 0 ∧
    (runGraph failClassifyCollab 0 emptyCache "q" []).sql_calls = 0 ∧
    (runGraph failClassifyCollab 0 emptyCache "q" []).state.df_dict = none := by
  decide

/-- C4: the cache is written only at `cache_store_node`, and only when the
terminal state has no (truthy) error, a non-empty row list, and at least
one of chart spec or insight; no write happens on a cache-hit run or on an
explain-intent run. -/
theorem cache_write_discipline :
    ∀ (C : Collaborators) (now : Int) (cache : PipelineCache) (q : String)
      (hist : List (String × String)),
      ((runGraph C now cache q hist).writes ≠ [] →
        optStrTruthy (runGraph C now cache q hist).state.error = false ∧
        dfTruthy (runGraph C now cache q hist).state.df_dict = true ∧
        ¬((runGraph C now cache q hist).state.chart_spec = none ∧
          (runGraph C now cache q hist).state.insight = none)) ∧
      ((runGraph C now cache q hist).state.cache_hit = true →
        (runGraph C now cache q hist).writes = []) ∧
      ((runGraph C now cache q hist).state.intent = some "explain" →
        (runGraph C now cache q hist).writes = []) := by
  intro C now cache q hist
  unfold runGraph
  dsimp only
  split
  case isTrue hexp =>
    exact ⟨fun hw => absurd rfl hw, fun _ => rfl, fun _ => rfl⟩
  case isFalse hexp =>
    split
    case isTrue hskip =>
      exact ⟨fun hw => absurd rfl hw, fun _ => rfl, fun _ => rfl⟩
    case isFalse hskip =>
      split
      case isTrue hgerr =>
        exact ⟨fun hw => absurd rfl hw, fun _ => rfl, fun _ => rfl⟩
      case isFalse hgerr =>
        refine ⟨fun hw => ?_, fun hch => ?_, fun hint => ?_⟩
        · have hcond := cache_store_node_writes now _ _ hw
          rw [cache_store_node_state]
          exact hcond
        · exfalso
          rw [cache_store_node_state, insights_node_cache_hit, chart_node_cache_hit,
            sql_executor_node_cache_hit, guardrail_node_cache_hit] at hch
          apply hskip
          rw [hch]
          simp
        · exfalso
          rw [cache_store_node_state, insights_node_intent, chart_node_intent,
            sql_executor_node_intent, guardrail_node_intent, cache_check_node_intent,
            planner_node_intent] at hint
          exact hexp hint

theorem cache_write_discipline_witness :
    (runGraph okCollab 0 emptyCache "show trend" []).writes ≠ [] ∧
    (optStrTruthy (runGraph okCollab 0 emptyCache "show trend" []).state.error = false ∧
      dfTruthy (runGraph okCollab 0 emptyCache "show trend" []).state.df_dict = true ∧
      ¬((runGraph okCollab 0 emptyCache "show trend" []).state.chart_spec = none ∧
        (runGraph okCollab 0 emptyCache "show trend" []).state.insight = none)) := by
  have hw : (runGraph okCollab 0 emptyCache "show trend" []).writes ≠ [] := by decide
  exact ⟨hw, (cache_write_discipline okCollab 0 emptyCache "show trend" []).1 hw⟩

/-- C8 (code evaluated at the failing input): with `max_retries = 0` the
retry loop of `run_query` never runs, `final_state` stays `None`, and the
response building raises `AttributeError` instead of returning the result
dict; with any positive attempt count a well-formed response is returned,
and the pipeline is invoked at most `max_retries` times. -/
theorem run_query_zero_attempts_fault :
    (∀ (C : Collaborators) (now : Int) (cache : PipelineCache) (q : String)
        (hist : List (String × String)),
        (run_query C now cache q hist 0).1 = Except.error pyNoneTypeFault) ∧
    (∀ (C : Collaborators) (now : Int) (cache : PipelineCache) (q : String)
        (hist : List (String × String)) (n : Nat),
        (run_query C now cache q hist n).2.2 ≤ n) ∧
    (∀ (C : Collaborators) (now : Int) (cache : PipelineCache) (q : String)
        (hist : List (String × String)) (n : Nat),
        ∃ resp : QueryResponse, (run_query C now cache q hist (n + 1)).1 = Except.ok resp) := by
  refine ⟨fun C now cache q hist => rfl, ?_, ?_⟩
  · intro C now cache q hist n
    unfold run_query
    dsimp only
    have h := runQueryLoop_count_le C now q hist n cache none
    cases hl : (runQueryLoop C now q hist n cache none).1 <;> simp [hl] <;> omega
  · intro C now cache q hist n
    unfold run_query
    dsimp only
    have hs := runQueryLoop_succ_isSome C now q hist n cache none
    cases hl : (runQueryLoop C now q hist (n + 1) cache none).1 with
    | none =>
      rw [hl] at hs
      simp at hs
    | some st =>
      exact ⟨buildResponse st, by simp [hl]⟩
